import Mathlib

/-
Formal model of NII_to_DCM_Python.py, the single source file of the
NII-to-DCM conversion utility.  The script loads a NIfTI label volume and a
NIfTI reference volume, loads an ordered series of DICOM slice files,
probes one slice to reconcile the slice orientation between the two storage
conventions, verifies consistency, and (per its comments) is meant to write
one DICOM file per slice with the segmentation substituted for the pixels.

Modelling conventions:
- numpy arrays are an inductive with one constructor per dimensionality;
  each constructor carries the shape and a total function on Fin indices.
- pixel and label values are integers; the float64 arrays produced by
  get_fdata hold integer-valued samples in every run that passes the
  consistency checks, and the float64 cast is exact on them, so the cast is
  modelled as the identity.
- operations that can raise in Python return Except, and the loop phases
  are explicit state-passing functions so that the state (including the
  list of files written to disk) is available on both success and failure.
- matplotlib calls (imshow, axis) are display-only no-ops and are omitted.
-/

namespace NiiToDcm

/-- Errors surfaced by the script: AssertionError carriers for the count,
shape, class and per-slice asserts, plus the numpy ValueError, the list
IndexError, the TypeError that Python raises when iterating None, and the
AttributeError that assigning to a getter-only property raises. -/
inductive RunErr where
  | countMismatch
  | shapeErr (msg : String)
  | classErr (msg : String)
  | sliceInconsistent (oneBased : Nat)
  | indexErr
  | valueErr
  | typeErr
  | attributeErr
deriving DecidableEq, Repr

/-- A numpy ndarray of integer-valued samples, up to three dimensions. -/
inductive NpArr where
  | a0 (x : ℤ)
  | a1 (n : Nat) (v : Fin n → ℤ)
  | a2 (h w : Nat) (v : Fin h → Fin w → ℤ)
  | a3 (s h w : Nat) (v : Fin s → Fin h → Fin w → ℤ)

/-- The shape tuple of an array. -/
def npShape : NpArr → List Nat
  | .a0 _ => []
  | .a1 n _ => [n]
  | .a2 h w _ => [h, w]
  | .a3 s h w _ => [s, h, w]

/-- Map a function over every sample of an array. -/
def npMap (f : ℤ → ℤ) : NpArr → NpArr
  | .a0 x => .a0 (f x)
  | .a1 n v => .a1 n (fun i => f (v i))
  | .a2 h w v => .a2 h w (fun i j => f (v i j))
  | .a3 s h w v => .a3 s h w (fun i j k => f (v i j k))

/-- Cast of one integer sample to int16: wrap into the interval
[-32768, 32767], as the numpy astype int16 conversion does. -/
def toInt16 (x : ℤ) : ℤ := (x + 32768) % 65536 - 32768

/-- astype int16 on a whole array. -/
def npAstypeInt16 : NpArr → NpArr := npMap toInt16

/-- astype float64.  Sample values are modelled as integers and the float64
cast is exact on them, so this is the identity on the model. -/
def npAstypeFloat64 (a : NpArr) : NpArr := a

/-- np.flip along axis 1: reverse the second axis.  Raises ValueError for
arrays of fewer than two dimensions (axis out of range). -/
def npFlip1 : NpArr → Except RunErr NpArr
  | .a2 h w v => .ok (.a2 h w (fun i j => v i (Fin.rev j)))
  | .a3 s h w v => .ok (.a3 s h w (fun i j k => v i (Fin.rev j) k))
  | _ => .error .valueErr

/-- Transpose that swaps the first two axes, as np.rot90 uses. -/
def npSwap01 : NpArr → Except RunErr NpArr
  | .a2 h w v => .ok (.a2 w h (fun i j => v j i))
  | .a3 s h w v => .ok (.a3 h s w (fun i j k => v j i k))
  | _ => .error .valueErr

/-- np.rot90 with k = 1 on axes (0, 1): numpy computes
transpose(flip(m, 1)) and raises ValueError for fewer than 2 dimensions. -/
def npRot90 (a : NpArr) : Except RunErr NpArr := (npFlip1 a).bind npSwap01

/-- np.fliplr: flip along axis 1, defined for 2-D and higher. -/
def npFliplr (a : NpArr) : Except RunErr NpArr := npFlip1 a

/-- The fixed in-plane transform the script applies at lines 79, 95, 101
and 119 of the source: np.fliplr(np.rot90(x)). -/
def npOrient (a : NpArr) : Except RunErr NpArr := (npRot90 a).bind npFliplr

/-- Basic integer indexing on axis 0, written a[idx, ...] in the source.
Python semantics: a negative index counts from the end; an index outside
the axis raises IndexError. -/
def npIndex0 : NpArr → Int → Except RunErr NpArr
  | .a3 s h w v, i =>
    let i2 := if i < 0 then i + s else i
    if hlt : 0 ≤ i2 ∧ i2 < s then .ok (.a2 h w (v ⟨i2.toNat, by omega⟩))
    else .error .indexErr
  | .a2 h w v, i =>
    let i2 := if i < 0 then i + h else i
    if hlt : 0 ≤ i2 ∧ i2 < h then .ok (.a1 w (v ⟨i2.toNat, by omega⟩))
    else .error .indexErr
  | .a1 n v, i =>
    let i2 := if i < 0 then i + n else i
    if hlt : 0 ≤ i2 ∧ i2 < n then .ok (.a0 (v ⟨i2.toNat, by omega⟩))
    else .error .indexErr
  | .a0 _, _ => .error .indexErr

/-- Total lookup into a 2-D sample function, 0 outside bounds; used to
re-index the right operand of a same-shape subtraction. -/
def npGet2 (h w : Nat) (v : Fin h → Fin w → ℤ) (i j : Nat) : ℤ :=
  if hi : i < h then if hj : j < w then v ⟨i, hi⟩ ⟨j, hj⟩ else 0 else 0

/-- Element-wise subtraction of two 2-D arrays.  The script only ever
subtracts two arrays of the same (512, 512) shape; a shape mismatch is the
numpy broadcast ValueError. -/
def npSub : NpArr → NpArr → Except RunErr NpArr
  | .a2 h w v, .a2 h2 w2 v2 =>
    if h2 = h ∧ w2 = w then
      .ok (.a2 h w (fun i j => v i j - npGet2 h2 w2 v2 i.val j.val))
    else .error .valueErr
  | _, _ => .error .valueErr

/-- The finite set of distinct sample values of an array. -/
def npVals : NpArr → Finset ℤ
  | .a0 x => {x}
  | .a1 _ v => Finset.image v Finset.univ
  | .a2 h w v => Finset.image (fun p : Fin h × Fin w => v p.1 p.2) Finset.univ
  | .a3 s h w v =>
    Finset.image (fun p : Fin s × Fin h × Fin w => v p.1 p.2.1 p.2.2) Finset.univ

/-- len(np.unique(a)): the number of distinct sample values. -/
def npUniqueLen (a : NpArr) : Nat := (npVals a).card

/-- Row-major serialisation of the samples of an array, as tobytes and
ravel produce. -/
def npToList : NpArr → List ℤ
  | .a0 x => [x]
  | .a1 n v => (List.finRange n).map v
  | .a2 h w v => ((List.finRange h).map (fun i => (List.finRange w).map (v i))).flatten
  | .a3 s h w v =>
    ((List.finRange s).map (fun i =>
      ((List.finRange h).map (fun j => (List.finRange w).map (v i j))).flatten)).flatten

/-- Insertion of a value into a sorted list of values. -/
def insertSorted (x : ℤ) : List ℤ → List ℤ
  | [] => [x]
  | y :: ys => if x ≤ y then x :: y :: ys else y :: insertSorted x ys

/-- Insertion sort over a list of values. -/
def sortInts : List ℤ → List ℤ
  | [] => []
  | x :: xs => insertSorted x (sortInts xs)

/-- np.unique(a) as a value: the sorted list of distinct sample values. -/
def npUniqueList (a : NpArr) : List ℤ := sortInts (npToList a).dedup

/-- Python min() over a list, None on the empty list. -/
def pyMin : List ℤ → Option ℤ
  | [] => none
  | x :: xs => some (match pyMin xs with | none => x | some m => min x m)

/-- Python max() over a list, None on the empty list. -/
def pyMax : List ℤ → Option ℤ
  | [] => none
  | x :: xs => some (match pyMax xs with | none => x | some m => max x m)

theorem pyMin_le {l : List ℤ} {m v : ℤ} (hm : pyMin l = some m) (hv : v ∈ l) :
    m ≤ v := by
  induction l generalizing m with
  | nil => cases hv
  | cons x xs ih =>
    rw [pyMin] at hm
    rcases List.mem_cons.mp hv with rfl | hvx
    · cases hx : pyMin xs with
      | none => rw [hx] at hm; simp at hm; omega
      | some m2 => rw [hx] at hm; simp at hm; subst hm; exact min_le_left _ _
    · cases hx : pyMin xs with
      | none =>
        cases xs with
        | nil => cases hvx
        | cons y ys => rw [pyMin] at hx; cases hx
      | some m2 =>
        rw [hx] at hm; simp at hm; subst hm
        exact le_trans (min_le_right _ _) (ih hx hvx)

theorem pyMax_ge {l : List ℤ} {m v : ℤ} (hm : pyMax l = some m) (hv : v ∈ l) :
    v ≤ m := by
  induction l generalizing m with
  | nil => cases hv
  | cons x xs ih =>
    rw [pyMax] at hm
    rcases List.mem_cons.mp hv with rfl | hvx
    · cases hx : pyMax xs with
      | none => rw [hx] at hm; simp at hm; omega
      | some m2 => rw [hx] at hm; simp at hm; subst hm; exact le_max_left _ _
    · cases hx : pyMax xs with
      | none =>
        cases xs with
        | nil => cases hvx
        | cons y ys => rw [pyMax] at hx; cases hx
      | some m2 =>
        rw [hx] at hm; simp at hm; subst hm
        exact le_trans (ih hx hvx) (le_max_right _ _)

/-- Lines 48 to 51 of the source: seg_val_list = np.unique(gt_segs), then
three asserts in order: exactly three distinct values, minimum 0,
maximum 2.  All three surface the ClassCountError of the spec taxonomy. -/
def checkClasses (a : NpArr) : Except RunErr Unit :=
  if (npUniqueList a).length = 3 then
    if pyMin (npUniqueList a) = some 0 then
      if pyMax (npUniqueList a) = some 2 then .ok ()
      else .error (.classErr "One segmentation class should have a value of 2.")
    else .error (.classErr "One segmentation class should have a value of 0.")
  else
    .error (.classErr "There are not three segmentation classes in the ground-truth segmentations.")

/-- Whether a load result is a class-count failure. -/
def isClassErr : Except RunErr Unit → Bool
  | .error (.classErr _) => true
  | _ => false

/-- One DICOM slice file: its name, its decoded pixel_array, its raw
PixelData payload, and the remaining header fields (opaque here). -/
structure Dcm where
  name : String
  pixelArray : NpArr
  pixelData : List ℤ
  meta : List (Nat × ℤ)

/-- The mutable local state of main: the two Python variables nii_img and
gt_segs (which the loop bodies rebind), and the list of files written to
disk by save_as calls. -/
structure FwdState where
  niiImg : NpArr
  gtSegs : NpArr
  saved : List Dcm

/-- Outcome of a phase of main: a value or an uncaught exception, in both
cases together with the state at that point. -/
inductive StepRes (α : Type) where
  | ok (a : α) (st : FwdState)
  | err (e : RunErr) (st : FwdState)

/-- The exception carried by an outcome, if any. -/
def resultErr {α : Type} : StepRes α → Option RunErr
  | .ok _ _ => none
  | .err e _ => some e

/-- The files written to disk at the end of an outcome. -/
def resultSaved {α : Type} : StepRes α → List Dcm
  | .ok _ st => st.saved
  | .err _ st => st.saved

/-- Whether an outcome is a normal completion. -/
def isOk {α : Type} : StepRes α → Bool
  | .ok _ _ => true
  | .err _ _ => false

/-- One iteration of the forward loop, lines 89 to 110 of the source:
line 92 loads the slice file d; line 95 rebinds nii_img to
fliplr(rot90(nii_img[idx, ...])).astype(int16); line 98 asserts that
nii_slice (the fixed probe transform, a loop-invariant argument) minus the
pixel array of d has a single distinct value, else AssertionError naming
slice idx + 1; line 101 rebinds gt_segs the same way; line 104 then
assigns dcm_file.pixel_array = gt_segs, and that assignment raises
AttributeError: pixel_array is a getter-only property of the pydicom
Dataset class, whose setattr routes non-keyword names to the plain object
setattr, which invokes the missing property setter.  Line 107 (PixelData)
and the commented-out save_as at line 110 are therefore unreachable, so
nothing is ever written to disk. -/
def fwdStep (niiSlice : NpArr) (idx : Nat) (d : Dcm) (st : FwdState) :
    StepRes Unit :=
  match npIndex0 st.niiImg (Int.ofNat idx) with
  | .error e => .err e st
  | .ok row =>
  match npOrient row with
  | .error e => .err e st
  | .ok t =>
  let st1 : FwdState := { st with niiImg := npAstypeInt16 t }
  match npSub niiSlice (npAstypeFloat64 d.pixelArray) with
  | .error e => .err e st1
  | .ok diff =>
  if npUniqueLen diff = 1 then
    match npIndex0 st1.gtSegs (Int.ofNat idx) with
    | .error e => .err e st1
    | .ok grow =>
    match npOrient grow with
    | .error e => .err e st1
    | .ok gt =>
    let st2 : FwdState := { st1 with gtSegs := npAstypeInt16 gt }
    .err .attributeErr st2
  else .err (.sliceInconsistent (idx + 1)) st1

/-- The forward loop of lines 89 to 110: enumerate the slice series from
index 0 and run fwdStep on each entry until one raises. -/
def fwdLoop (niiSlice : NpArr) : Nat → List Dcm → FwdState → StepRes Unit
  | _, [], st => .ok () st
  | idx, d :: rest, st =>
    match fwdStep niiSlice idx d st with
    | .err e st1 => .err e st1
    | .ok _ st1 => fwdLoop niiSlice (idx + 1) rest st1

/-- The else branch, lines 112 to 144 of the source: lines 115 and 116
turn the probe index 100 into -101; line 119 recomputes the transform of
nii_img at index -101 (the mirrored probe S - 1 - 100 for S = 272);
line 126 builds the tuple (comparison, message) and discards it, so the
mirrored-probe comparison is never asserted; line 129 calls
dcm_list.reverse(), which reverses the list in place and returns None, so
enumerate raises TypeError before the loop body ever runs. -/
def elseBranch (probe : Dcm) (dcmList : List Dcm) (st : FwdState) :
    StepRes Unit :=
  match npIndex0 st.niiImg (-101) with
  | .error e => .err e st
  | .ok row =>
  match npOrient row with
  | .error e => .err e st
  | .ok niiSlice2 =>
  match npSub niiSlice2 (npAstypeFloat64 probe.pixelArray) with
  | .error e => .err e st
  | .ok diff =>
  let _tuple := (npUniqueLen diff == 1, "There is an inconsistency in the images.")
  let _reversedInPlace := dcmList.reverse
  .err .typeErr st

/-- The body of main after the directory listing, lines 35 to 147 of the
source, on the loaded label volume (gtSegs), reference volume (niiImg) and
ordered slice series: the 272-count assert, the two (272, 512, 512) shape
asserts, the class-count asserts, the probe slice load at index 100 and
its (512, 512) shape assert, the probe transform nii_slice, the
consistency branch at line 86 picking the forward loop or the else branch,
and the final confirmation message of line 147. -/
def mainModel (series : List Dcm) (st : FwdState) : StepRes String :=
  if series.length = 272 then
    if npShape st.gtSegs = [272, 512, 512] then
      match checkClasses st.gtSegs with
      | .error e => .err e st
      | .ok _ =>
      if npShape st.niiImg = [272, 512, 512] then
        match series.get? 100 with
        | none => .err .indexErr st
        | some probe =>
        if npShape probe.pixelArray = [512, 512] then
          match (npIndex0 st.niiImg 100).bind npOrient with
          | .error e => .err e st
          | .ok niiSlice =>
          match npSub niiSlice (npAstypeFloat64 probe.pixelArray) with
          | .error e => .err e st
          | .ok diff =>
          match (if npUniqueLen diff = 1 then fwdLoop niiSlice 0 series st
                 else elseBranch probe series st) with
          | .err e st1 => .err e st1
          | .ok _ st1 =>
            .ok "Finished converting ground-truth segmentations from a NIfTI file to DICOM files." st1
        else .err (.shapeErr "The shape of the array of the image should be (512, 512).") st
      else .err (.shapeErr "The shape of the array of the image should be (272, 512, 512).") st
    else .err (.shapeErr "The shape of the array of the ground-truth segmentations should be (272, 512, 512).") st
  else .err .countMismatch st

/-- The per-slice verification as the specification describes it:
recompute the fixed transform of the given reference-volume slice and
compare it with the pixel array of the slice file, the comparison being a
single distinct element-wise difference. -/
def specSliceCheck (volSlice : NpArr) (d : Dcm) : Bool :=
  match (npOrient volSlice).bind
      (fun t => npSub t (npAstypeFloat64 d.pixelArray)) with
  | .ok diff => npUniqueLen diff == 1
  | .error _ => false

/-- The consistency comparison of lines 86, 98 and 126 as a value:
len(np.unique(x - y.astype(float64))), None when the subtraction itself
raises. -/
def npUniqueLenOfSub (x y : NpArr) : Option Nat :=
  match npSub x (npAstypeFloat64 y) with
  | .ok diff => some (npUniqueLen diff)
  | .error _ => none

theorem fwdStep_saved (ns : NpArr) (i : Nat) (d : Dcm) (st : FwdState) :
    resultSaved (fwdStep ns i d st) = st.saved := by
  simp only [fwdStep]
  repeat' split
  all_goals rfl

theorem fwdLoop_saved (ns : NpArr) (i : Nat) (s : List Dcm) (st : FwdState) :
    resultSaved (fwdLoop ns i s st) = st.saved := by
  induction s generalizing i st with
  | nil => rfl
  | cons d rest ih =>
    have hstep := fwdStep_saved ns i d st
    rw [fwdLoop]
    cases h : fwdStep ns i d st with
    | err e st1 => rw [h] at hstep; exact hstep
    | ok a st1 =>
      rw [h] at hstep
      exact (ih (i + 1) st1).trans hstep

theorem elseBranch_saved (probe : Dcm) (dcmList : List Dcm) (st : FwdState) :
    resultSaved (elseBranch probe dcmList st) = st.saved := by
  simp only [elseBranch]
  repeat' split
  all_goals rfl

theorem branchSaved (b : Prop) [Decidable b] (ns : NpArr) (probe : Dcm)
    (series : List Dcm) (st : FwdState) :
    resultSaved (if b then fwdLoop ns 0 series st else elseBranch probe series st) =
      st.saved := by
  split
  · exact fwdLoop_saved ns 0 series st
  · exact elseBranch_saved probe series st

/-- A synthetic two-slice reference volume, slice 0 = [[0, 0]] and
slice 1 = [[0, 1]], used to exercise the forward loop. -/
def volFn2 : Fin 2 → Fin 1 → Fin 2 → ℤ := fun i _ k => if i = 1 ∧ k = 1 then 1 else 0

def exVol : NpArr := .a3 2 1 2 volFn2

def exSlice0 : NpArr := .a2 1 2 (volFn2 0)

def exSlice1 : NpArr := .a2 1 2 (volFn2 1)

/-- The fixed transform of slice 0 of exVol: the all-zero (2, 1) array. -/
def exPix0 : NpArr := .a2 2 1 (fun _ _ => 0)

/-- The fixed transform of slice 1 of exVol: [[1], [0]]. -/
def exPix1 : NpArr := .a2 2 1 (fun r _ => if r = 0 then 1 else 0)

def exDcm0 : Dcm := ⟨"IM-0001-0001.dcm", exPix0, [], []⟩

def exDcm1 : Dcm := ⟨"IM-0001-0002.dcm", exPix1, [], []⟩

def exSt : FwdState := ⟨exVol, exVol, []⟩

/-- A synthetic two-slice volume whose slices are both [[0, 1]], so every
comparison against the fixed probe transform is consistent. -/
def volFn5 : Fin 2 → Fin 1 → Fin 2 → ℤ := fun _ _ k => if k = 1 then 1 else 0

def ex5Vol : NpArr := .a3 2 1 2 volFn5

def ex5Slice0 : NpArr := .a2 1 2 (volFn5 0)

def ex5Slice1 : NpArr := .a2 1 2 (volFn5 1)

/-- The fixed transform of each slice of ex5Vol: [[1], [0]]. -/
def ex5Pix : NpArr := .a2 2 1 (fun r _ => if r = 0 then 1 else 0)

def ex5Dcm0 : Dcm := ⟨"IM-0001-0001.dcm", ex5Pix, [], []⟩

def ex5Dcm1 : Dcm := ⟨"IM-0001-0002.dcm", ex5Pix, [], []⟩

def ex5St : FwdState := ⟨ex5Vol, ex5Vol, []⟩

/-- A 102-slice volume (large enough for the -101 mirrored-probe index to
be in range) whose slice 1 is [[0, 1]]. -/
def volFn3 : Fin 102 → Fin 1 → Fin 2 → ℤ := fun i _ k => if i = 1 ∧ k = 1 then 1 else 0

def ex3Vol : NpArr := .a3 102 1 2 volFn3

/-- Slice 1 of ex3Vol, the slice the mirrored index -101 selects. -/
def ex3Mirror : NpArr := .a2 1 2 (volFn3 1)

/-- A probe slice file whose pixels (constant 5) match neither the forward
nor the mirrored probe transform. -/
def ex3Probe : Dcm := ⟨"IM-0001-0101.dcm", .a2 2 1 (fun _ _ => 5), [], []⟩

def ex3St : FwdState := ⟨ex3Vol, ex3Vol, []⟩

/-- Claim C1: the spec says that after the orientation mapping is chosen,
the program recomputes the fixed transform of the reference volume at
mapped(i) for every slice i and compares it to slice i of the series,
aborting with a 1-based index on failure.  The code instead compares the
fixed probe transform nii_slice to every slice (line 98) while the
recomputed value only overwrites nii_img (line 95): on a series that is
slice-for-slice consistent in the sense of the spec (both slices pass
specSliceCheck), the run still aborts naming slice 1. -/
theorem forwardLoop_rejects_consistent_series :
    specSliceCheck exSlice0 exDcm0 = true ∧
    specSliceCheck exSlice1 exDcm1 = true ∧
    resultErr (fwdLoop exPix1 0 [exDcm0, exDcm1] exSt) =
      some (RunErr.sliceInconsistent 1) := by
  refine ⟨by decide, by decide, by decide⟩

/-- Claim C2: the spec says a successful run writes one output file per
input slice before printing the confirmation.  The save_as calls are
commented out in the source and no output directory exists, so no run of
main ever extends the list of files written to disk. -/
theorem mainModel_never_writes (series : List Dcm) (st : FwdState) :
    resultSaved (mainModel series st) = st.saved := by
  simp only [mainModel]
  repeat' split
  all_goals first
    | rfl
    | (rename_i heq
       exact (congrArg resultSaved heq).symm.trans (branchSaved _ _ _ _ _))

/-- Claim C3: the spec requires that when neither the forward nor the
mirrored probe matches, reconciliation fails with a fatal error and no
silent fallback into the write phase.  In the code the mirrored-probe
comparison at line 126 is a bare tuple, never asserted: on an input whose
mirrored probe slice fails the comparison, the else branch raises no
inconsistency error at all and instead reaches the write loop, which
raises TypeError because dcm_list.reverse() returns None. -/
theorem mirror_mismatch_silently_ignored :
    specSliceCheck ex3Mirror ex3Probe = false ∧
    resultErr (elseBranch ex3Probe [ex3Probe] ex3St) = some RunErr.typeErr ∧
    resultSaved (elseBranch ex3Probe [ex3Probe] ex3St) = [] := by
  refine ⟨by decide, by decide, rfl⟩

/-- Claim C4: a run whose per-slice verification fails at some index
produces no output files.  This holds (degenerately, because the save_as
call is commented out): the forward loop never changes the list of files
written to disk. -/
theorem no_output_when_slice_check_fails (ns : NpArr) (i : Nat) (s : List Dcm)
    (st : FwdState) (n : Nat)
    (_hfail : resultErr (fwdLoop ns i s st) = some (RunErr.sliceInconsistent n)) :
    resultSaved (fwdLoop ns i s st) = st.saved :=
  fwdLoop_saved ns i s st

/-- Claim C4 witness: a concrete run that fails verification at slice 1
and has written nothing. -/
theorem no_output_when_slice_check_fails_witness :
    resultErr (fwdLoop exPix1 0 [exDcm0, exDcm1] exSt) =
      some (RunErr.sliceInconsistent 1) ∧
    resultSaved (fwdLoop exPix1 0 [exDcm0, exDcm1] exSt) = exSt.saved :=
  ⟨by decide,
   no_output_when_slice_check_fails exPix1 0 [exDcm0, exDcm1] exSt 1 (by decide)⟩

/-- Claim C5: the spec says each produced output slice is a copy of the
input slice with only the payload replaced by the transformed labels.  No
output slice is ever produced: even on a series that is fully consistent
(both slices pass specSliceCheck and the probe comparison), the run dies
in the first iteration at line 104 with AttributeError, because
dcm_file.pixel_array is a getter-only pydicom property that cannot be
assigned; the PixelData update and the (already commented-out) save are
unreachable, and the list of files written to disk stays empty. -/
theorem writer_crashes_and_writes_nothing :
    specSliceCheck ex5Slice0 ex5Dcm0 = true ∧
    specSliceCheck ex5Slice1 ex5Dcm1 = true ∧
    resultErr (fwdLoop ex5Pix 0 [ex5Dcm0, ex5Dcm1] ex5St) =
      some RunErr.attributeErr ∧
    resultSaved (fwdLoop ex5Pix 0 [ex5Dcm0, ex5Dcm1] ex5St) = [] := by
  refine ⟨by decide, by decide, by decide, rfl⟩

/-- Claim C7: the spec says the slice-index mapping applied over range(S)
is always the identity or the full reversal, chosen once and applied
uniformly.  The reversed branch never applies any mapping: for every
input it raises (the TypeError of enumerate(None) at line 129, or an
earlier numpy error), so it never completes normally. -/
theorem elseBranch_never_succeeds (probe : Dcm) (dcmList : List Dcm)
    (st : FwdState) :
    isOk (elseBranch probe dcmList st) = false := by
  simp only [elseBranch]
  repeat' split
  all_goals rfl

/-- Two same-shape (1, 2) sample functions at constant offset 1. -/
def exOnes : Fin 1 → Fin 2 → ℤ := fun _ _ => 1

def exZeros : Fin 1 → Fin 2 → ℤ := fun _ _ => 0

/-- Claim C6 counterexample: the consistency comparison of line 86 (a
single distinct element-wise difference) holds for two arrays at constant
offset 1 that are not numerically identical, so the predicate is not
equivalent to element-wise equality. -/
theorem singleDiff_without_equality :
    npUniqueLenOfSub (NpArr.a2 1 2 exOnes) (NpArr.a2 1 2 exZeros) = some 1 ∧
    exOnes ≠ exZeros := by
  refine ⟨by decide, by decide⟩

theorem npGet2_fin {h w : Nat} (v : Fin h → Fin w → ℤ) (i : Fin h) (j : Fin w) :
    npGet2 h w v i.val j.val = v i j := by
  simp [npGet2, i.isLt, j.isLt]

/-- Claim C6, amended: for same-shape nonempty arrays, a single distinct
element-wise difference is equivalent to the difference being the same
constant at every position; element-wise equality is the special case
where that constant is 0, so equality implies the predicate but not
conversely. -/
theorem singleDiff_iff_constant_offset (h w : Nat) (f g : Fin h → Fin w → ℤ)
    (hh : 0 < h) (hw : 0 < w) :
    npUniqueLenOfSub (NpArr.a2 h w f) (NpArr.a2 h w g) = some 1 ↔
      ∃ c : ℤ, ∀ i j, f i j - g i j = c := by
  simp only [npUniqueLenOfSub, npAstypeFloat64, npSub, and_self, if_true,
    npUniqueLen, npVals, npGet2_fin, Option.some.injEq]
  constructor
  · intro h1
    obtain ⟨a, ha⟩ := Finset.card_eq_one.mp h1
    refine ⟨a, fun i j => ?_⟩
    have hmem : f i j - g i j ∈
        Finset.image (fun p : Fin h × Fin w => f p.1 p.2 - g p.1 p.2) Finset.univ :=
      Finset.mem_image_of_mem _ (Finset.mem_univ (i, j))
    rw [ha] at hmem
    exact Finset.mem_singleton.mp hmem
  · rintro ⟨c, hc⟩
    rw [Finset.card_eq_one]
    refine ⟨c, Finset.ext fun x => ?_⟩
    simp only [Finset.mem_image, Finset.mem_univ, true_and, Finset.mem_singleton]
    constructor
    · rintro ⟨p, hp⟩
      rw [hc p.1 p.2] at hp
      exact hp.symm
    · intro hx
      exact ⟨(⟨0, hh⟩, ⟨0, hw⟩), by rw [hc]; exact hx.symm⟩

def exW : Fin 1 → Fin 1 → ℤ := fun _ _ => 0

/-- Claim C6 witness: the amended equivalence at a concrete nonempty
shape. -/
theorem singleDiff_iff_constant_offset_witness :
    0 < 1 ∧
    (npUniqueLenOfSub (NpArr.a2 1 1 exW) (NpArr.a2 1 1 exW) = some 1 ↔
      ∃ c : ℤ, ∀ i j, exW i j - exW i j = c) :=
  ⟨Nat.one_pos, singleDiff_iff_constant_offset 1 1 exW exW Nat.one_pos Nat.one_pos⟩

/-- A label volume with only two distinct values, 3 and 7. -/
def exTwoVals : NpArr := .a1 2 (fun i => if i = 0 then 3 else 7)

/-- A label volume with three distinct values 0, 1, 5, one outside
[0, 2]. -/
def exOutlier : NpArr := .a1 3 (fun i => if i = 0 then 0 else if i = 1 then 1 else 5)

/-- Claim C8: loading a label volume whose distinct values are not exactly
3 values with minimum 0 and maximum 2 is fatal: both a volume with only 2
distinct values and a volume whose 3 distinct values include one outside
[0, 2] fail the class-count asserts of lines 48 to 51. -/
theorem classCheck_rejects_bad_volumes (a : NpArr)
    (h : (npUniqueList a).length = 2 ∨
      ((npUniqueList a).length = 3 ∧ ∃ v ∈ npUniqueList a, v < 0 ∨ 2 < v)) :
    isClassErr (checkClasses a) = true := by
  unfold checkClasses
  rcases h with h2 | ⟨h3, v, hv, hout⟩
  · rw [if_neg (by omega)]
    rfl
  · rw [if_pos h3]
    by_cases hmin : pyMin (npUniqueList a) = some 0
    · rw [if_pos hmin]
      by_cases hmax : pyMax (npUniqueList a) = some 2
      · exfalso
        rcases hout with hlt | hgt
        · have := pyMin_le hmin hv
          omega
        · have := pyMax_ge hmax hv
          omega
      · rw [if_neg hmax]
        rfl
    · rw [if_neg hmin]
      rfl

/-- Claim C8 witness: the two boundary volumes of the claim are both
rejected. -/
theorem classCheck_rejects_bad_volumes_witness :
    ((npUniqueList exTwoVals).length = 2 ∧
      isClassErr (checkClasses exTwoVals) = true) ∧
    ((npUniqueList exOutlier).length = 3 ∧ (5 : ℤ) ∈ npUniqueList exOutlier ∧
      isClassErr (checkClasses exOutlier) = true) :=
  ⟨⟨by decide, classCheck_rejects_bad_volumes exTwoVals (Or.inl (by decide))⟩,
   ⟨by decide, by decide,
    classCheck_rejects_bad_volumes exOutlier (Or.inr (by decide))⟩⟩

/-- Claim C9: the fixed in-plane transform fliplr(rot90(x)) is
self-inverse: applying it twice to any 2-D array returns the array. -/
theorem orient_selfInverse (h w : Nat) (v : Fin h → Fin w → ℤ) :
    (npOrient (NpArr.a2 h w v)).bind npOrient = Except.ok (NpArr.a2 h w v) := by
  simp only [npOrient, npRot90, npFliplr, npFlip1, npSwap01, Except.bind,
    Fin.rev_rev]

/-- str.split(sep) with a one-character separator, on the character list
of the string: worker with the accumulator of the current field. -/
def splitAux (c : Char) : List Char → List Char → List (List Char)
  | [], acc => [acc.reverse]
  | x :: xs, acc =>
    if x = c then acc.reverse :: splitAux c xs [] else splitAux c xs (x :: acc)

/-- str.split(sep) with a one-character separator. -/
def splitChar (c : Char) (l : List Char) : List (List Char) :=
  splitAux c l []

/-- Line 58 of the source: the name of the NIfTI image file is the last
field of str(dcm_dir_path).split(sep) for the path separator, followed by
the suffix _img.nii.gz.  Python index -1 is the last element; split always
returns a nonempty list. -/
def niiImgName (dcmDirPath : List Char) : List Char :=
  (splitChar '/' dcmDirPath).getLastD [] ++ ("_img.nii.gz").data

/-- Line 58 of the source: the full path that nib.load receives,
nii_dir_path joined with the derived file name. -/
def niiImgPath (niiDirPath dcmDirPath : List Char) : List Char :=
  niiDirPath ++ ('/' :: niiImgName dcmDirPath)

theorem splitAux_no_sep {c : Char} {b : List Char} (hb : c ∉ b)
    (acc : List Char) : splitAux c b acc = [acc.reverse ++ b] := by
  induction b generalizing acc with
  | nil => simp [splitAux]
  | cons x xs ih =>
    have hx : ¬(x = c) := fun hxc => hb (hxc ▸ List.mem_cons_self x xs)
    rw [splitAux, if_neg hx, ih (fun hm => hb (List.mem_cons_of_mem x hm))]
    simp

theorem splitAux_getLastD {c : Char} {b : List Char} (hb : c ∉ b)
    (d : List Char) (acc dflt : List Char) :
    (splitAux c (d ++ c :: b) acc).getLastD dflt = b := by
  induction d generalizing acc dflt with
  | nil =>
    rw [List.nil_append, splitAux, if_pos rfl, splitAux_no_sep hb]
    simp
  | cons y ys ih =>
    by_cases hy : y = c
    · rw [List.cons_append, splitAux, if_pos hy, List.getLastD_cons]
      exact ih [] acc.reverse
    · rw [List.cons_append, splitAux, if_neg hy]
      exact ih (y :: acc) dflt

/-- Claim C10: for every run, the NIfTI image file read at line 58 is the
file named after the last path component of dcm_dir_path with the suffix
_img.nii.gz, inside nii_dir_path: the reference volume path is coupled to
the basename of the DICOM directory. -/
theorem niiImgPath_uses_dcm_basename (niiDir d b : List Char)
    (hb : '/' ∉ b) :
    niiImgPath niiDir (d ++ '/' :: b) =
      niiDir ++ '/' :: (b ++ ("_img.nii.gz").data) := by
  unfold niiImgPath niiImgName splitChar
  rw [splitAux_getLastD hb d [] []]

/-- Claim C10 witness: the derived path at a concrete DICOM directory. -/
theorem niiImgPath_uses_dcm_basename_witness :
    ('/' ∉ ("3D_Sag_T2_Cube_08mm_R2_12").data) ∧
    niiImgPath ("/data/vol_1/nifti").data
        (("/data/vol_1/dicom").data ++ '/' :: ("3D_Sag_T2_Cube_08mm_R2_12").data) =
      ("/data/vol_1/nifti").data ++
        '/' :: (("3D_Sag_T2_Cube_08mm_R2_12").data ++ ("_img.nii.gz").data) :=
  ⟨by decide,
   niiImgPath_uses_dcm_basename ("/data/vol_1/nifti").data
     ("/data/vol_1/dicom").data ("3D_Sag_T2_Cube_08mm_R2_12").data (by decide)⟩

end NiiToDcm
